import Mathlib

/-!
# Verification of the carcost cost-projection engine

This file embeds the cost-projection engine of the `carcost` repository
(`car-cost.ts` and its second script variant) in Lean 4 and proves properties
of it.

Modelling conventions:
* JavaScript numbers are modelled by `ℚ`.  Year counts (`loanYears`,
  `expectedLife`, the `length` argument of the interpolator) are modelled by
  `ℕ`, matching the spec's "years as non-negative integers" and the
  `parseInt`-sourced inputs.
* A JavaScript arithmetic result that is `NaN` or `±Infinity` (which arises
  only from the division in the loan-amortization formula when its
  denominator is zero) is modelled by `none : Option ℚ`; finite results are
  `some q`.  `Option.map` / `optAdd` reproduce the propagation of non-finite
  values through subsequent arithmetic.
* `Array.prototype.sort` sorts the caller's array in place, so the embedding
  of `interpolatePoints` is state-passing: `interpolatePointsS` returns both
  the posterior contents of the caller's `points` array and the returned
  dense cost list.  JavaScript's sort is stable and the comparator is
  `(a, b) => a[0] - b[0]`; `List.insertionSort` with `a.1 ≤ b.1` is a stable
  ascending sort by year and models it.
* Optional fields of the `Settings` record are `Option` fields; the
  destructuring defaults of `calculateCostOfOwnership` become
  `resolveSettings`.  In the source the default insurance curve references
  the already-destructured `expectedLife`, and `resolveSettings` mirrors
  that by resolving `expectedLife` first.
-/

/-- A control point `[year, cost]` (`GraphPoint` in the source). -/
abbrev GraphPoint := ℚ × ℚ

/-- Source: `lerp(start, end, perc)` returns `start - ((start - end) * perc)`. -/
def lerp (start stop perc : ℚ) : ℚ :=
  start - ((start - stop) * perc)

/-- The scan in `interpolatePoints`'s inner `for` loop: walk the adjacent
pairs of the (sorted) point list in order and return the first pair
`(points[i], points[i+1])` with `points[i][0] <= year && points[i+1][0] > year`,
or `none` when no pair satisfies the condition. -/
def scanBracket : List GraphPoint → ℚ → Option (GraphPoint × GraphPoint)
  | a :: b :: rest, y =>
    if a.1 ≤ y ∧ y < b.1 then some (a, b) else scanBracket (b :: rest) y
  | _, _ => none

/-- The body of `interpolatePoints`'s outer loop for one target year `y`:
`left`/`right` start as the first and last sorted points and are replaced by
the first bracketing pair when the scan finds one; a flat pair returns
`left[1]` directly, otherwise the code lerps at
`(y - left[0]) / (right[0] - left[0])`. -/
def interpAt (sorted : List GraphPoint) (y : ℚ) : ℚ :=
  let lr := (scanBracket sorted y).getD (sorted.headD (0, 0), sorted.getLastD (0, 0))
  if lr.1.1 = lr.2.1 then lr.1.2
  else lerp lr.1.2 lr.2.2 ((y - lr.1.1) / (lr.2.1 - lr.1.1))

/-- Source: `interpolatePoints(points, length)`, state-passing form.  The
first component is the posterior contents of the caller's `points` array
(the source calls `points.sort(...)`, which sorts the caller's array in
place on the path with two or more points); the second component is the
returned dense list of `length` interpolated values. -/
def interpolatePointsS (points : List GraphPoint) (length : ℕ) :
    List GraphPoint × List ℚ :=
  if points.length = 0 then (points, List.replicate length 0)
  else if points.length = 1 then (points, List.replicate length (points.headD (0, 0)).2)
  else
    let sorted := points.insertionSort (fun a b => a.1 ≤ b.1)
    (sorted, (List.range length).map fun year : ℕ => interpAt sorted (year : ℚ))

/-- The value returned by `interpolatePoints(points, length)`. -/
def interpolatePoints (points : List GraphPoint) (length : ℕ) : List ℚ :=
  (interpolatePointsS points length).2

/-- The contents of the caller's `points` array after
`interpolatePoints(points, length)` returns. -/
def interpolatePointsPost (points : List GraphPoint) (length : ℕ) : List GraphPoint :=
  (interpolatePointsS points length).1

/-- Source: `calculateLoanPayments(principal, rate, years)` returns
`monthlyPayment * 12 * years` with
`monthlyPayment = principal * monthlyRate * (1+monthlyRate)^n / ((1+monthlyRate)^n - 1)`,
`monthlyRate = rate / 12`, `n = years * 12`.  When the denominator is zero
(in particular whenever `rate = 0` or `years = 0`) the JavaScript division
yields `NaN` or `±Infinity`; that outcome is `none`. -/
def calculateLoanPayments (principal rate : ℚ) (years : ℕ) : Option ℚ :=
  let monthlyRate := rate / 12
  let numPayments := years * 12
  let grown := (1 + monthlyRate) ^ numPayments
  if grown - 1 = 0 then none
  else some (principal * monthlyRate * grown / (grown - 1) * 12 * years)

/-- The optional `Settings` record fields consumed by
`calculateCostOfOwnership` (the presentation-only `name`/`modelId` fields are
out of the engine's scope). -/
structure Settings where
  cost : Option ℚ := none
  downPayment : Option ℚ := none
  loanRate : Option ℚ := none
  loanYears : Option ℕ := none
  expectedLife : Option ℕ := none
  insurancePoints : Option (List GraphPoint) := none
  yearlyPermitCost : Option ℚ := none
  maintenancePoints : Option (List GraphPoint) := none

/-- The settings after applying the destructuring defaults at the top of
`calculateCostOfOwnership`. -/
structure Resolved where
  cost : ℚ
  downPayment : ℚ
  loanRate : ℚ
  loanYears : ℕ
  expectedLife : ℕ
  insurancePoints : List GraphPoint
  yearlyPermitCost : ℚ
  maintenancePoints : List GraphPoint

/-- The destructuring defaults of `calculateCostOfOwnership`:
`cost = 0`, `downPayment = 0`, `loanRate = 0.03`, `loanYears = 4`,
`expectedLife = 20`, `insurancePoints = [[0, 14000], [expectedLife - 1, 6500]]`
(referencing the already-resolved `expectedLife`), `yearlyPermitCost = 2643`,
`maintenancePoints = [[0, 1000], [5, 2000], [10, 3500], [15, 5000]]`. -/
def resolveSettings (s : Settings) : Resolved :=
  let expectedLife := s.expectedLife.getD 20
  { cost := s.cost.getD 0
    downPayment := s.downPayment.getD 0
    loanRate := s.loanRate.getD (3 / 100)
    loanYears := s.loanYears.getD 4
    expectedLife := expectedLife
    insurancePoints := s.insurancePoints.getD [(0, 14000), ((expectedLife : ℚ) - 1, 6500)]
    yearlyPermitCost := s.yearlyPermitCost.getD 2643
    maintenancePoints := s.maintenancePoints.getD [(0, 1000), (5, 2000), (10, 3500), (15, 5000)] }

/-- Source: `yearlyLoanPayment = totalLoanPayment / loanYears` with
`totalLoanPayment = calculateLoanPayments(cost - downPayment, loanRate, loanYears)`.
(When `loanYears = 0` the total is already `none`, so the division by the
term never happens on a finite value.) -/
def yearlyLoanPayment (r : Resolved) : Option ℚ :=
  (calculateLoanPayments (r.cost - r.downPayment) r.loanRate r.loanYears).map
    (fun t => t / (r.loanYears : ℚ))

/-- The loan-free part of the source's per-year `yearCost`:
`insuranceCosts[i] + yearlyPermitCost + maintenanceCosts[i]`. -/
def yearCost (r : Resolved) (i : ℕ) : ℚ :=
  (interpolatePoints r.insurancePoints r.expectedLife).getD i 0 + r.yearlyPermitCost +
    (interpolatePoints r.maintenancePoints r.expectedLife).getD i 0

/-- Source: the `yearlyPayments` array — one entry per year index
`i < expectedLife`, with `yearCost += yearlyLoanPayment` only when
`i < loanYears`. -/
def yearlyPayments (r : Resolved) : List (Option ℚ) :=
  (List.range r.expectedLife).map fun i =>
    if i < r.loanYears then (yearlyLoanPayment r).map (fun p => yearCost r i + p)
    else some (yearCost r i)

/-- JavaScript addition on possibly non-finite values: adding a `NaN`/`∞`
operand gives a non-finite result. -/
def optAdd : Option ℚ → Option ℚ → Option ℚ
  | some a, some b => some (a + b)
  | _, _ => none

/-- `yearlyPayments.reduce((acc, v) => acc + v, 0)`. -/
def optSum (l : List (Option ℚ)) : Option ℚ :=
  l.foldl optAdd (some 0)

/-- Source: `calculateCostOfOwnership` as written in `car-cost.ts`:
`total = yearlyPayments.reduce((acc, v) => acc + v, 0)`. -/
def calculateCostOfOwnership (s : Settings) : List (Option ℚ) × Option ℚ :=
  let yp := yearlyPayments (resolveSettings s)
  (yp, optSum yp)

/-- Source: `calculateCostOfOwnership` as written in the second script
variant: `total = yearlyPayments.reduce((acc, v) => acc + v, 0) + downPayment`. -/
def calculateCostOfOwnershipV2 (s : Settings) : List (Option ℚ) × Option ℚ :=
  let yp := yearlyPayments (resolveSettings s)
  (yp, optAdd (optSum yp) (some (resolveSettings s).downPayment))

instance : IsTotal GraphPoint (fun a b => a.1 ≤ b.1) :=
  ⟨fun a b => le_total a.1 b.1⟩

instance : IsTrans GraphPoint (fun a b => a.1 ≤ b.1) :=
  ⟨fun _ _ _ h₁ h₂ => le_trans h₁ h₂⟩

/-! ## Helper lemmas -/

theorem scanBracket_eq_none_of_forall_le :
    ∀ (l : List GraphPoint) (y : ℚ), (∀ p ∈ l, p.1 ≤ y) → scanBracket l y = none
  | [], _, _ => rfl
  | [_], _, _ => rfl
  | a :: b :: rest, y, h => by
    rw [scanBracket, if_neg, scanBracket_eq_none_of_forall_le (b :: rest) y
      (fun p hp => h p (List.mem_cons_of_mem a hp))]
    rintro ⟨-, hby⟩
    exact absurd (h b (by simp)) (not_le.2 hby)

theorem scanBracket_eq_none_of_forall_lt :
    ∀ (l : List GraphPoint) (y : ℚ), (∀ p ∈ l, y < p.1) → scanBracket l y = none
  | [], _, _ => rfl
  | [_], _, _ => rfl
  | a :: b :: rest, y, h => by
    rw [scanBracket, if_neg, scanBracket_eq_none_of_forall_lt (b :: rest) y
      (fun p hp => h p (List.mem_cons_of_mem a hp))]
    rintro ⟨hay, -⟩
    exact absurd (h a (by simp)) (not_lt.2 hay)

theorem scanBracket_append :
    ∀ (l₁ : List GraphPoint) {a b : GraphPoint} (l₂ : List GraphPoint) {y : ℚ},
      (∀ p ∈ l₁, p.1 ≤ y) → a.1 ≤ y → y < b.1 →
      scanBracket (l₁ ++ a :: b :: l₂) y = some (a, b)
  | [], a, b, l₂, y, _, ha, hb => by
    rw [List.nil_append, scanBracket, if_pos ⟨ha, hb⟩]
  | x :: l₁, a, b, l₂, y, h, ha, hb => by
    have tail := scanBracket_append l₁ l₂
      (fun p hp => h p (List.mem_cons_of_mem x hp)) ha hb
    cases l₁ with
    | nil =>
      rw [List.cons_append, List.nil_append, scanBracket, if_neg]
      · simpa using tail
      · rintro ⟨-, hy⟩
        exact absurd ha (not_le.2 hy)
    | cons z zs =>
      rw [List.cons_append, List.cons_append, scanBracket, if_neg]
      · simpa using tail
      · rintro ⟨-, hy⟩
        exact absurd (h z (by simp)) (not_le.2 hy)

theorem yearlyPayments_length (r : Resolved) :
    (yearlyPayments r).length = r.expectedLife := by
  simp [yearlyPayments]

theorem yearlyPayments_getD (r : Resolved) (i : ℕ) (h : i < r.expectedLife) :
    (yearlyPayments r).getD i (some 0) =
      if i < r.loanYears then (yearlyLoanPayment r).map (fun p => yearCost r i + p)
      else some (yearCost r i) := by
  simp [yearlyPayments, List.getD_eq_getElem?_getD, List.getElem?_range h]

theorem interpolatePoints_getD (points : List GraphPoint) (length y : ℕ)
    (h2 : 2 ≤ points.length) (hy : y < length) :
    (interpolatePoints points length).getD y 0 =
      interpAt (points.insertionSort (fun a b => a.1 ≤ b.1)) (y : ℚ) := by
  have h0 : ¬points.length = 0 := by omega
  have h1 : ¬points.length = 1 := by omega
  simp only [interpolatePoints, interpolatePointsS, if_neg h0, if_neg h1,
    List.getD_eq_getElem?_getD, List.getElem?_map, List.getElem?_range hy,
    Option.map_some', Option.getD_some]

theorem interpolatePoints_length (points : List GraphPoint) (length : ℕ) :
    (interpolatePoints points length).length = length := by
  by_cases h0 : points.length = 0
  · simp only [interpolatePoints, interpolatePointsS, if_pos h0, List.length_replicate]
  · by_cases h1 : points.length = 1
    · simp only [interpolatePoints, interpolatePointsS, if_neg h0, if_pos h1,
        List.length_replicate]
    · simp only [interpolatePoints, interpolatePointsS, if_neg h0, if_neg h1,
        List.length_map, List.length_range]

/-! ## Claim theorems and witnesses -/

/-- Claim C9: `interpolate` of an empty curve returns `n` zeros, `interpolate`
of a one-point curve returns `n` copies of that point's cost (constant
extrapolation), and for `n = 0` the result is empty in both cases. -/
theorem interpolate_empty_and_singleton (n : ℕ) (y c : ℚ) :
    interpolatePoints [] n = List.replicate n 0 ∧
    interpolatePoints [(y, c)] n = List.replicate n c ∧
    interpolatePoints [] 0 = [] ∧
    interpolatePoints [(y, c)] 0 = [] := by
  refine ⟨?_, ?_, ?_, ?_⟩ <;> simp [interpolatePoints, interpolatePointsS]

/-- Claim C1 counterexample: in the `car-cost.ts` variant the `total` returned
by `calculateCostOfOwnership` is the bare sum of the yearly breakdown.  With
`downPayment = 1` (and all costs zeroed out) the total is `0`, not
`0 + 1`, so the total does not include the down payment there. -/
theorem total_ne_sum_plus_downPayment :
    (calculateCostOfOwnership { cost := some 0
                                downPayment := some 1
                                loanRate := some 0
                                loanYears := some 0
                                expectedLife := some 1
                                insurancePoints := some []
                                yearlyPermitCost := some 0
                                maintenancePoints := some [] }).2 ≠
      optAdd
        (optSum (calculateCostOfOwnership { cost := some 0
                                            downPayment := some 1
                                            loanRate := some 0
                                            loanYears := some 0
                                            expectedLife := some 1
                                            insurancePoints := some []
                                            yearlyPermitCost := some 0
                                            maintenancePoints := some [] }).1)
        (some (resolveSettings { cost := some 0
                                 downPayment := some 1
                                 loanRate := some 0
                                 loanYears := some 0
                                 expectedLife := some 1
                                 insurancePoints := some []
                                 yearlyPermitCost := some 0
                                 maintenancePoints := some [] }).downPayment) := by
  norm_num [calculateCostOfOwnership, yearlyPayments, resolveSettings, yearCost,
    interpolatePoints, interpolatePointsS, optSum, optAdd, List.range_succ,
    yearlyLoanPayment, calculateLoanPayments]

/-- Claim C1 amended: the `total` of the second script variant
(`calculateCostOfOwnershipV2`) is the sum of the yearly breakdown plus
`downPayment` added exactly once; the `car-cost.ts` variant
(`calculateCostOfOwnership`) returns the bare sum without the down payment.
The two variants produce the same yearly breakdown. -/
theorem total_downPayment_by_variant (s : Settings) :
    (calculateCostOfOwnership s).2 = optSum (calculateCostOfOwnership s).1 ∧
    (calculateCostOfOwnershipV2 s).1 = (calculateCostOfOwnership s).1 ∧
    (calculateCostOfOwnershipV2 s).2 =
      optAdd (optSum (calculateCostOfOwnershipV2 s).1)
        (some (resolveSettings s).downPayment) :=
  ⟨rfl, rfl, rfl⟩

/-- Claim C2 (evaluation at the failing input): with `loanRate = 0` the code's
literal amortization formula has denominator `(1 + 0/12)^n - 1 = 0`, so
`calculateLoanPayments` yields a non-numeric value (`NaN` in JavaScript,
modelled `none`) rather than the straight-line `(cost - downPayment) / loanYears`,
and that non-numeric value propagates into every loan-bearing year of the
breakdown.  There is no guarded straight-line branch in the code. -/
theorem zero_rate_non_numeric :
    calculateLoanPayments (100000 - 20000) 0 4 = none ∧
    yearlyLoanPayment (resolveSettings { cost := some 100000
                                         downPayment := some 20000
                                         loanRate := some 0 }) = none ∧
    (calculateCostOfOwnership { cost := some 100000
                                downPayment := some 20000
                                loanRate := some 0 }).1.getD 0 (some 0) = none := by
  refine ⟨by norm_num [calculateLoanPayments], ?_, ?_⟩
  · norm_num [yearlyLoanPayment, calculateLoanPayments, resolveSettings]
  · have h : (0 : ℕ) < (resolveSettings { cost := some 100000
                                          downPayment := some 20000
                                          loanRate := some 0 }).expectedLife := by
      norm_num [resolveSettings]
    rw [show (calculateCostOfOwnership { cost := some 100000
                                         downPayment := some 20000
                                         loanRate := some 0 }).1 =
        yearlyPayments (resolveSettings { cost := some 100000
                                          downPayment := some 20000
                                          loanRate := some 0 }) from rfl,
      yearlyPayments_getD _ 0 h]
    norm_num [yearlyLoanPayment, calculateLoanPayments, resolveSettings]

/-- Claim C5: for every settings value and every year index `i` below
`expectedLife`, the yearly loan payment is added to the loan-free year cost
exactly when `i < loanYears`; years at index `loanYears` and beyond hold only
insurance + permit + maintenance, and the breakdown has exactly
`expectedLife` entries, so when `loanYears > expectedLife` the loan is
charged only for the first `expectedLife` years. -/
theorem loan_charged_iff_within_term (s : Settings) (i : ℕ)
    (h : i < (resolveSettings s).expectedLife) :
    (calculateCostOfOwnership s).1.length = (resolveSettings s).expectedLife ∧
    (calculateCostOfOwnership s).1.getD i (some 0) =
      (if i < (resolveSettings s).loanYears
       then (yearlyLoanPayment (resolveSettings s)).map
         (fun p => yearCost (resolveSettings s) i + p)
       else some (yearCost (resolveSettings s) i)) :=
  ⟨yearlyPayments_length _, yearlyPayments_getD _ i h⟩

/-- Witness for C5 at default settings: year index 5 lies past the default
4-year loan term, so its entry is the loan-free year cost. -/
theorem loan_charged_iff_within_term_witness :
    (calculateCostOfOwnership {}).1.length = 20 ∧
    (calculateCostOfOwnership {}).1.getD 5 (some 0) =
      some (yearCost (resolveSettings {}) 5) := by
  have h := loan_charged_iff_within_term {} 5 (by norm_num [resolveSettings])
  refine ⟨h.1.trans (by norm_num [resolveSettings]), h.2.trans ?_⟩
  norm_num [resolveSettings]

/-- Claim C6: `expectedLife` resolves to the settings' value when set and to
the default 20 otherwise, and when `insuranceCostCurve` is unset the default
insurance curve `[(0, 14000), (expectedLife - 1, 6500)]` is built from the
already-resolved `expectedLife`; with both fields unset it is
`[(0, 14000), (19, 6500)]`. -/
theorem default_insurance_curve :
    (∀ s : Settings, ∀ n : ℕ, s.expectedLife = some n →
      (resolveSettings s).expectedLife = n) ∧
    (∀ s : Settings, s.expectedLife = none → (resolveSettings s).expectedLife = 20) ∧
    (∀ s : Settings, s.insurancePoints = none →
      (resolveSettings s).insurancePoints =
        [(0, 14000), (((resolveSettings s).expectedLife : ℚ) - 1, 6500)]) ∧
    (resolveSettings {}).insurancePoints = [(0, 14000), (19, 6500)] := by
  refine ⟨?_, ?_, ?_, ?_⟩
  · intro s n h
    simp [resolveSettings, h]
  · intro s h
    simp [resolveSettings, h]
  · intro s h
    simp [resolveSettings, h]
  · norm_num [resolveSettings]

/-- Witness for C6: with `expectedLife = 7` set and the insurance curve
unset, the default curve is `[(0, 14000), (6, 6500)]`. -/
theorem default_insurance_curve_witness :
    (resolveSettings { expectedLife := some 7 }).insurancePoints =
      [(0, 14000), (6, 6500)] := by
  have h := default_insurance_curve.2.2.1 { expectedLife := some 7 } rfl
  rw [h, default_insurance_curve.1 { expectedLife := some 7 } 7 rfl]
  norm_num

/-- Claim C7: for a year-sorted curve, a target year bracketed by the
consecutive points `a` and `b` (`a.year ≤ y < b.year`) is interpolated
linearly as `a.cost + t * (b.cost - a.cost)` with
`t = (y - a.year) / (b.year - a.year)`; in particular
`interpolate [(0,100),(10,200)] 11` has value `150` at index 5 and values
`100` and `200` at indices 0 and 10. -/
theorem interpolate_bracketed_linear :
    (∀ (l₁ : List GraphPoint) (a b : GraphPoint) (l₂ : List GraphPoint) (length y : ℕ),
      (l₁ ++ a :: b :: l₂).Sorted (fun p q : GraphPoint => p.1 ≤ q.1) →
      a.1 ≤ (y : ℚ) → (y : ℚ) < b.1 → y < length →
      (interpolatePoints (l₁ ++ a :: b :: l₂) length).getD y 0 =
        a.2 + ((y : ℚ) - a.1) / (b.1 - a.1) * (b.2 - a.2)) ∧
    (interpolatePoints [(0, 100), (10, 200)] 11).getD 5 0 = 150 ∧
    (interpolatePoints [(0, 100), (10, 200)] 11).getD 0 0 = 100 ∧
    (interpolatePoints [(0, 100), (10, 200)] 11).getD 10 0 = 200 := by
  have hconc : interpolatePoints [(0, 100), (10, 200)] 11 =
      [100, 110, 120, 130, 140, 150, 160, 170, 180, 190, 200] := by
    norm_num [interpolatePoints, interpolatePointsS, interpAt, scanBracket, lerp,
      List.insertionSort, List.orderedInsert, List.range_succ]
  refine ⟨?_, by rw [hconc]; rfl, by rw [hconc]; rfl, by rw [hconc]; rfl⟩
  intro l₁ a b l₂ length y hs ha hb hy
  have h2 : 2 ≤ (l₁ ++ a :: b :: l₂).length := by
    simp only [List.length_append, List.length_cons]
    omega
  rw [interpolatePoints_getD _ _ _ h2 hy, List.Sorted.insertionSort_eq hs]
  have hpre : ∀ p ∈ l₁, p.1 ≤ (y : ℚ) := by
    intro p hp
    exact le_trans ((List.pairwise_append.1 hs).2.2 p hp a (by simp)) ha
  have hne : a.1 ≠ b.1 := ne_of_lt (lt_of_le_of_lt ha hb)
  simp only [interpAt, scanBracket_append l₁ l₂ hpre ha hb, Option.getD_some]
  rw [if_neg hne, lerp]
  ring

/-- Witness for C7: the spec's midpoint check, obtained from the bracketed
interpolation rule at the two-point curve `[(0,100),(10,200)]` and target
year 5. -/
theorem interpolate_bracketed_linear_witness :
    (interpolatePoints ([] ++ ((0 : ℚ), (100 : ℚ)) :: ((10 : ℚ), (200 : ℚ)) :: []) 11).getD
      5 0 = 100 + ((5 : ℕ) - (0 : ℚ)) / (10 - 0) * (200 - 100) :=
  interpolate_bracketed_linear.1 [] (0, 100) (10, 200) [] 11 5
    (by simp [List.sorted_cons]) (by norm_num) (by norm_num) (by norm_num)

/-- Claim C3 counterexample: for the sorted three-point curve
`[(0,0),(1,0),(2,10)]` and target year 3 (beyond the last point), the code
returns 15 — extrapolation along the chord from the *first* to the *last*
point — whereas extrapolating along the final segment through the last two
points `(1,0)` and `(2,10)` would give `0 + (3-1)/(2-1)*(10-0) = 20`. -/
theorem extrapolation_not_last_segment :
    (interpolatePoints [((0 : ℚ), (0 : ℚ)), (1, 0), (2, 10)] 4).getD 3 0 = 15 ∧
    (0 : ℚ) + ((3 : ℚ) - 1) / (2 - 1) * (10 - 0) = 20 ∧
    (interpolatePoints [((0 : ℚ), (0 : ℚ)), (1, 0), (2, 10)] 4).getD 3 0 ≠
      (0 : ℚ) + ((3 : ℚ) - 1) / (2 - 1) * (10 - 0) := by
  have hconc : interpolatePoints [((0 : ℚ), (0 : ℚ)), (1, 0), (2, 10)] 4 =
      [0, 0, 10, 15] := by
    norm_num [interpolatePoints, interpolatePointsS, interpAt, scanBracket, lerp,
      List.insertionSort, List.orderedInsert, List.range_succ]
  refine ⟨by rw [hconc]; rfl, by norm_num, ?_⟩
  rw [hconc]
  norm_num

/-- Claim C3 amended: when the target year `y` is not strictly below any
control point's year (extrapolation to the right), or is strictly below the
first point's year (extrapolation to the left), the scan finds no bracket and
the code falls back to the pair (first sorted point, last sorted point): the
value extrapolates along the chord joining the first and last control points,
not along the first or last segment. -/
theorem extrapolation_uses_first_last_chord (points : List GraphPoint)
    (length y : ℕ) (hs : points.Sorted (fun p q : GraphPoint => p.1 ≤ q.1))
    (h2 : 2 ≤ points.length) (hy : y < length)
    (hne : (points.headD (0, 0)).1 ≠ (points.getLastD (0, 0)).1)
    (hcase : (∀ p ∈ points, p.1 ≤ (y : ℚ)) ∨ (y : ℚ) < (points.headD (0, 0)).1) :
    (interpolatePoints points length).getD y 0 =
      (points.headD (0, 0)).2 +
        ((y : ℚ) - (points.headD (0, 0)).1) /
          ((points.getLastD (0, 0)).1 - (points.headD (0, 0)).1) *
          ((points.getLastD (0, 0)).2 - (points.headD (0, 0)).2) := by
  rw [interpolatePoints_getD _ _ _ h2 hy, List.Sorted.insertionSort_eq hs]
  have hnone : scanBracket points ((y : ℕ) : ℚ) = none := by
    rcases hcase with h | h
    · exact scanBracket_eq_none_of_forall_le _ _ h
    · obtain ⟨q, rest, rfl⟩ : ∃ q rest, points = q :: rest := by
        cases points with
        | nil => simp at h2
        | cons q rest => exact ⟨q, rest, rfl⟩
      apply scanBracket_eq_none_of_forall_lt
      intro p hp
      rcases List.mem_cons.mp hp with hp' | hp'
      · subst hp'
        simpa using h
      · exact lt_of_lt_of_le (by simpa using h)
          (List.rel_of_sorted_cons hs p hp')
  simp only [interpAt, hnone, Option.getD_none]
  rw [if_neg hne, lerp]
  ring

/-- Witness for the C3 amended theorem: on the curve `[(0,0),(1,0),(2,10)]`
at target year 3 the chord from `(0,0)` to `(2,10)` gives
`0 + 3/2 * 10 = 15`. -/
theorem extrapolation_uses_first_last_chord_witness :
    (interpolatePoints [((0 : ℚ), (0 : ℚ)), (1, 0), (2, 10)] 4).getD 3 0 =
      0 + ((3 : ℕ) - (0 : ℚ)) / (2 - 0) * (10 - 0) :=
  extrapolation_uses_first_last_chord [((0 : ℚ), (0 : ℚ)), (1, 0), (2, 10)] 4 3
    (by simp [List.sorted_cons]) (by norm_num) (by norm_num) (by norm_num)
    (Or.inl (by intro p hp; fin_cases hp <;> norm_num))

/-- Claim C4 counterexample: the code calls `points.sort(...)`, which sorts
the caller's array in place; after `interpolate([(1,5),(0,7)], 1)` the
caller's array is `[(0,7),(1,5)]`, not the original `[(1,5),(0,7)]`. -/
theorem interpolate_mutates_caller_points :
    interpolatePointsPost [((1 : ℚ), (5 : ℚ)), (0, 7)] 1 ≠
      [((1 : ℚ), (5 : ℚ)), (0, 7)] := by
  norm_num [interpolatePointsPost, interpolatePointsS, List.insertionSort,
    List.orderedInsert, Prod.ext_iff]

/-- Claim C4 amended: `interpolate` sorts the caller's `points` array in
place on the path with at least two points.  After the call the caller's
array holds the same control points (a permutation) sorted ascending by
year; it is unchanged when the input has fewer than two points or is already
sorted by year. -/
theorem interpolate_post_characterization (points : List GraphPoint) (length : ℕ) :
    (interpolatePointsPost points length).Perm points ∧
    (2 ≤ points.length →
      (interpolatePointsPost points length).Sorted (fun p q : GraphPoint => p.1 ≤ q.1)) ∧
    (points.length ≤ 1 → interpolatePointsPost points length = points) ∧
    (points.Sorted (fun p q : GraphPoint => p.1 ≤ q.1) →
      interpolatePointsPost points length = points) := by
  by_cases h0 : points.length = 0
  · have hpost : interpolatePointsPost points length = points := by
      simp only [interpolatePointsPost, interpolatePointsS, if_pos h0]
    rw [hpost]
    exact ⟨List.Perm.refl _, fun h => absurd h (by omega), fun _ => rfl, fun _ => rfl⟩
  · by_cases h1 : points.length = 1
    · have hpost : interpolatePointsPost points length = points := by
        simp only [interpolatePointsPost, interpolatePointsS, if_neg h0, if_pos h1]
      rw [hpost]
      exact ⟨List.Perm.refl _, fun h => absurd h (by omega), fun _ => rfl, fun _ => rfl⟩
    · have hpost : interpolatePointsPost points length =
          points.insertionSort (fun a b => a.1 ≤ b.1) := by
        simp only [interpolatePointsPost, interpolatePointsS, if_neg h0, if_neg h1]
      rw [hpost]
      exact ⟨List.perm_insertionSort _ _, fun _ => List.sorted_insertionSort _ _,
        fun h => absurd h (by omega), fun hs => List.Sorted.insertionSort_eq hs⟩

/-- Witness for the C4 amended theorem: an already-sorted two-point array is
returned unchanged. -/
theorem interpolate_post_characterization_witness :
    interpolatePointsPost [((0 : ℚ), (7 : ℚ)), (1, 5)] 3 = [((0 : ℚ), (7 : ℚ)), (1, 5)] :=
  (interpolate_post_characterization [((0 : ℚ), (7 : ℚ)), (1, 5)] 3).2.2.2
    (by simp [List.sorted_cons])

/-- Claim C8: the engine never rejects its input: for every settings value it
returns a breakdown with one entry per year of `expectedLife`; the loan
principal is `cost - downPayment` even when negative, and (for a positive
rate and a positive term, where the amortization formula is numeric) a
negative principal propagates as a negative yearly loan payment that is
added to every year `i < loanYears` of the breakdown rather than causing an
error. -/
theorem projection_never_rejects (s : Settings) :
    (calculateCostOfOwnership s).1.length = (resolveSettings s).expectedLife ∧
    ((resolveSettings s).cost - (resolveSettings s).downPayment < 0 →
      0 < (resolveSettings s).loanRate → 0 < (resolveSettings s).loanYears →
      ∃ v : ℚ, v < 0 ∧ yearlyLoanPayment (resolveSettings s) = some v ∧
        ∀ i : ℕ, i < (resolveSettings s).loanYears →
          i < (resolveSettings s).expectedLife →
          (calculateCostOfOwnership s).1.getD i (some 0) =
            some (yearCost (resolveSettings s) i + v)) := by
  refine ⟨yearlyPayments_length _, fun hneg hr hy => ?_⟩
  have h12 : (0 : ℚ) < 12 := by norm_num
  have hmr : 0 < (resolveSettings s).loanRate / 12 := div_pos hr h12
  have hgrown : (1 : ℚ) <
      (1 + (resolveSettings s).loanRate / 12) ^ ((resolveSettings s).loanYears * 12) :=
    one_lt_pow₀ (by linarith) (by omega)
  have hgpos : (0 : ℚ) <
      (1 + (resolveSettings s).loanRate / 12) ^ ((resolveSettings s).loanYears * 12) :=
    lt_trans one_pos hgrown
  have hyq : (0 : ℚ) < ((resolveSettings s).loanYears : ℚ) := by exact_mod_cast hy
  have hcalc : calculateLoanPayments
      ((resolveSettings s).cost - (resolveSettings s).downPayment)
      (resolveSettings s).loanRate (resolveSettings s).loanYears =
      some (((resolveSettings s).cost - (resolveSettings s).downPayment) *
        ((resolveSettings s).loanRate / 12) *
        (1 + (resolveSettings s).loanRate / 12) ^ ((resolveSettings s).loanYears * 12) /
        ((1 + (resolveSettings s).loanRate / 12) ^ ((resolveSettings s).loanYears * 12) - 1) *
        12 * (resolveSettings s).loanYears) := by
    simp only [calculateLoanPayments]
    rw [if_neg (sub_ne_zero_of_ne (ne_of_gt hgrown))]
  have hylp : yearlyLoanPayment (resolveSettings s) =
      some (((resolveSettings s).cost - (resolveSettings s).downPayment) *
        ((resolveSettings s).loanRate / 12) *
        (1 + (resolveSettings s).loanRate / 12) ^ ((resolveSettings s).loanYears * 12) /
        ((1 + (resolveSettings s).loanRate / 12) ^ ((resolveSettings s).loanYears * 12) - 1) *
        12 * (resolveSettings s).loanYears / (resolveSettings s).loanYears) := by
    simp only [yearlyLoanPayment, hcalc, Option.map_some']
  refine ⟨_, ?_, hylp, ?_⟩
  · have hgm1 : (0 : ℚ) <
        (1 + (resolveSettings s).loanRate / 12) ^ ((resolveSettings s).loanYears * 12) - 1 :=
      by linarith
    have h1 := mul_neg_of_neg_of_pos hneg hmr
    have h2 := mul_neg_of_neg_of_pos h1 hgpos
    have h3 := div_neg_of_neg_of_pos h2 hgm1
    have h4 := mul_neg_of_neg_of_pos h3 h12
    have h5 := mul_neg_of_neg_of_pos h4 hyq
    exact div_neg_of_neg_of_pos h5 hyq
  · intro i hi hlife
    rw [show (calculateCostOfOwnership s).1 = yearlyPayments (resolveSettings s) from rfl,
      yearlyPayments_getD _ i hlife, if_pos hi, hylp, Option.map_some']

/-- Witness for C8: with `cost = 0` and `downPayment = 100` (down payment
exceeding cost) and defaults otherwise, the principal is negative and the
negative yearly loan payment is added to the loan years. -/
theorem projection_never_rejects_witness :
    ∃ v : ℚ, v < 0 ∧
      yearlyLoanPayment (resolveSettings { cost := some 0
                                           downPayment := some 100
                                           expectedLife := some 1 }) = some v ∧
      ∀ i : ℕ, i < (resolveSettings { cost := some 0
                                      downPayment := some 100
                                      expectedLife := some 1 }).loanYears →
        i < (resolveSettings { cost := some 0
                               downPayment := some 100
                               expectedLife := some 1 }).expectedLife →
        (calculateCostOfOwnership { cost := some 0
                                    downPayment := some 100
                                    expectedLife := some 1 }).1.getD i (some 0) =
          some (yearCost (resolveSettings { cost := some 0
                                            downPayment := some 100
                                            expectedLife := some 1 }) i + v) :=
  (projection_never_rejects { cost := some 0
                              downPayment := some 100
                              expectedLife := some 1 }).2
    (by norm_num [resolveSettings]) (by norm_num [resolveSettings])
    (by norm_num [resolveSettings])

/-- Claim C10: with `cost` unset the purchase cost resolves to 0 and the
principal is `-downPayment`; with neither `cost` nor `downPayment` set the
principal is 0, the yearly loan payment is exactly 0 at any positive rate
(and positive term), and every year of the breakdown is just
insurance + permit + maintenance. -/
theorem unset_cost_zero (s : Settings) :
    (s.cost = none → (resolveSettings s).cost = 0 ∧
      (resolveSettings s).cost - (resolveSettings s).downPayment =
        -(resolveSettings s).downPayment) ∧
    (s.cost = none → s.downPayment = none →
      (resolveSettings s).cost - (resolveSettings s).downPayment = 0 ∧
      (0 < (resolveSettings s).loanRate → 0 < (resolveSettings s).loanYears →
        yearlyLoanPayment (resolveSettings s) = some 0) ∧
      (0 < (resolveSettings s).loanRate →
        ∀ i : ℕ, i < (resolveSettings s).expectedLife →
          (calculateCostOfOwnership s).1.getD i (some 0) =
            some (yearCost (resolveSettings s) i))) := by
  constructor
  · intro hc
    constructor
    · simp [resolveSettings, hc]
    · simp [resolveSettings, hc]
  · intro hc hd
    have hprin : (resolveSettings s).cost - (resolveSettings s).downPayment = 0 := by
      simp [resolveSettings, hc, hd]
    have hpay : 0 < (resolveSettings s).loanRate → 0 < (resolveSettings s).loanYears →
        yearlyLoanPayment (resolveSettings s) = some 0 := by
      intro hr hy
      have hmr : 0 < (resolveSettings s).loanRate / 12 := div_pos hr (by norm_num)
      have hgrown : (1 : ℚ) <
          (1 + (resolveSettings s).loanRate / 12) ^ ((resolveSettings s).loanYears * 12) :=
        one_lt_pow₀ (by linarith) (by omega)
      simp only [yearlyLoanPayment, calculateLoanPayments, hprin]
      rw [if_neg (sub_ne_zero_of_ne (ne_of_gt hgrown))]
      simp
    refine ⟨hprin, hpay, ?_⟩
    intro hr i hlife
    rw [show (calculateCostOfOwnership s).1 = yearlyPayments (resolveSettings s) from rfl,
      yearlyPayments_getD _ i hlife]
    by_cases hi : i < (resolveSettings s).loanYears
    · rw [if_pos hi, hpay hr (lt_of_le_of_lt (Nat.zero_le i) hi), Option.map_some',
        add_zero]
    · rw [if_neg hi]

/-- Witness for C10: with all settings unset (so cost and down payment both
default to 0, rate to 3%, term to 4 years), the yearly loan payment is 0 and
the first year's cost is just insurance + permit + maintenance. -/
theorem unset_cost_zero_witness :
    yearlyLoanPayment (resolveSettings {}) = some 0 ∧
    (calculateCostOfOwnership {}).1.getD 0 (some 0) =
      some (yearCost (resolveSettings {}) 0) := by
  have h := (unset_cost_zero {}).2 rfl rfl
  exact ⟨h.2.1 (by norm_num [resolveSettings]) (by norm_num [resolveSettings]),
    h.2.2 (by norm_num [resolveSettings]) 0 (by norm_num [resolveSettings])⟩
